import Mathlib

/-!
Shallow embedding of the miniwavesurfer.js waveform core
(`src/wavesurfer.js`), together with a model of the range cache the
source imports from `peakcache.js`.

JS numbers that only ever carry finite values are embedded as `ℚ`
(pixel widths and positions, which are always integral, as `ℤ`);
the places where `NaN` / `Infinity` / non-number values are observable
are embedded through the explicit `JSVal` type.  JS exceptions are
embedded as `Except` results; functions that mutate the instance and
may throw return the (unchanged) instance alongside the error, mirroring
the fact that a JS `throw` leaves the object's fields as they were.
-/

namespace MiniWaveSurfer

/-- JS `Math.round` on a rational: round half up, `⌊x + 1/2⌋`. -/
def jsRound (q : ℚ) : ℤ := ⌊q + 1 / 2⌋

/-! ### Range cache

Modelled from the spec: the repository imports `PeakCache` from
`./peakcache`, a file that is not part of the sources given here; the
model below follows §4.1 of the specification word for word.  The cache
records the total width of the previous call and a sorted list of
disjoint, non-adjacent painted pixel ranges `[start, end)`.
-/

structure PeakCache where
  totalWidth : Option ℤ
  painted : List (ℤ × ℤ)
  deriving Repr, DecidableEq

/-- A fresh cache: no recorded width, nothing painted. -/
def PeakCache.init : PeakCache := ⟨none, []⟩

/-- Modelled from the spec (§4.1): the "new" sub-ranges of `[s, e)` are
exactly the gaps between `[s, e)` and the pre-existing coverage,
computed before the merge.  `l` is the sorted disjoint painted list. -/
def newRangesIn (s e : ℤ) : List (ℤ × ℤ) → List (ℤ × ℤ)
  | [] => if s < e then [(s, e)] else []
  | (a, b) :: rest =>
    if e ≤ a then (if s < e then [(s, e)] else [])
    else if b ≤ s then newRangesIn s e rest
    else (if s < a then [(s, a)] else []) ++ newRangesIn b e rest

/-- Modelled from the spec (§4.1): inserting `[s, e)` absorbs every
existing entry that overlaps or is adjacent
(`existing.start <= end && existing.end >= start`) into a widened
entry. -/
def absorbRange (s e : ℤ) : List (ℤ × ℤ) → List (ℤ × ℤ)
  | [] => [(s, e)]
  | (a, b) :: rest =>
    if b < s then (a, b) :: absorbRange s e rest
    else if e < a then (s, e) :: (a, b) :: rest
    else absorbRange (min s a) (max e b) rest

/-- Modelled from the spec (§4.1):
`addRange(totalWidth, start, end)` returns the minimal disjoint
sub-ranges of `[start, end)` not already painted, then marks all of
`[start, end)` painted.  A width differing from the recorded one
discards the painted set first; the degenerate `start == end` request
returns the empty sequence and inserts nothing. -/
def addRangeToPeakCache (c : PeakCache) (totalWidth s e : ℤ) :
    List (ℤ × ℤ) × PeakCache :=
  let painted := if c.totalWidth = some totalWidth then c.painted else []
  if s = e then
    ([], { totalWidth := some totalWidth, painted := painted })
  else
    (newRangesIn s e painted,
      { totalWidth := some totalWidth, painted := absorbRange s e painted })

/-! ### Parameters and instance state (`wavesurfer.js`) -/

/-- The subset of `defaultParams` the rendering core reads. -/
structure Params where
  minPxPerSec : ℚ
  pixelRatio : ℚ
  fillParent : Bool
  scrollParent : Bool
  partialRender : Bool
  deriving Repr, DecidableEq

/-- The instance fields of the `WaveSurfer` class touched by the
operations under verification.  `parentWidth` stands for
`this.drawer.getWidth()`, the host's visible width. -/
structure WaveSurferState where
  params : Params
  duration : ℚ
  curPosition : ℚ
  peaks : Option (List ℚ)
  peakMax : ℚ
  isReady : Bool
  peakCache : Option PeakCache
  parentWidth : ℤ
  deriving Repr, DecidableEq

/-- Errors thrown by the embedded methods.  `nullPeakCache` is the JS
`TypeError` raised when `drawBuffer` dereferences a `null`
`this.peakCache`. -/
inductive JSError where
  | peaksEmpty
  | durationEmpty
  | seekOutOfRange
  | nullPeakCache
  deriving Repr, DecidableEq

/-- Observable calls made on the drawer and events fired on the
instance, in program order. -/
inductive WSEvent where
  | interaction
  | seek (progress : ℚ)
  | drawerProgress (progress : ℚ)
  | drawerSetWidth (width : ℤ)
  | drawerRecenter (progress : ℚ)
  | drawerDrawPeaks (width start stop : ℤ)
  | drawerDrawPeaksEmpty
  | addRangeCall (width start stop : ℤ)
  | redraw (width : ℤ)
  | ready
  deriving Repr, DecidableEq

/-- `createPeakCache` (`wavesurfer.js:608`): the cache exists only when
`partialRender` is set. -/
def createPeakCache (p : Params) : Option PeakCache :=
  if p.partialRender then some PeakCache.init else none

/-- The width/start/end geometry computed at the top of `drawBuffer`
(`wavesurfer.js:978`). -/
structure DrawGeom where
  nominalWidth : ℤ
  width : ℤ
  start : ℤ
  stop : ℤ
  deriving Repr, DecidableEq

/-- First half of `drawBuffer` (`wavesurfer.js:979`–`997`):
`nominalWidth = Math.round(duration * minPxPerSec * pixelRatio)`,
`end = Math.max(start + parentWidth, width)`, then the fill-parent
policy collapses the width to the parent width. -/
def computeDrawGeom (p : Params) (duration : ℚ) (parentWidth : ℤ) : DrawGeom :=
  let nominalWidth := jsRound (duration * p.minPxPerSec * p.pixelRatio)
  let width := nominalWidth
  let start : ℤ := 0
  let stop := max (start + parentWidth) width
  if p.fillParent && (!p.scrollParent || decide (nominalWidth < parentWidth)) then
    { nominalWidth := nominalWidth, width := parentWidth, start := 0, stop := parentWidth }
  else
    { nominalWidth := nominalWidth, width := width, start := start, stop := stop }

/-- Second half of `drawBuffer` (`wavesurfer.js:999`–`1015`), dispatch
on `partialRender` given the geometry already computed. -/
def drawBufferAux (inst : WaveSurferState) (g : DrawGeom) :
    Except JSError (WaveSurferState × List WSEvent) :=
  if inst.params.partialRender then
    match inst.peakCache with
    | some c =>
      let r := addRangeToPeakCache c g.width g.start g.stop
      .ok ({ inst with peakCache := some r.2 },
        .addRangeCall g.width g.start g.stop ::
          r.1.map (fun nr => .drawerDrawPeaks g.width nr.1 nr.2) ++
            [.redraw g.width])
    | none => .error .nullPeakCache
  else
    .ok (inst, [.drawerDrawPeaks g.width g.start g.stop, .redraw g.width])

/-- `drawBuffer` (`wavesurfer.js:978`–`1016`). -/
def drawBuffer (inst : WaveSurferState) :
    Except JSError (WaveSurferState × List WSEvent) :=
  drawBufferAux inst (computeDrawGeom inst.params inst.duration inst.parentWidth)

/-! ### JS values with `NaN` / `Infinity` / non-numbers -/

/-- A JS value as observed by `seekTo`'s validation and by
`getPlayedPercents`: a finite number, `NaN`, an infinity, or any value
whose `typeof` is not `'number'`. -/
inductive JSVal where
  | num (q : ℚ)
  | nan
  | posInf
  | negInf
  | nonNumber
  deriving Repr, DecidableEq

/-- JS truthiness on numeric values: `0` and `NaN` are falsy. -/
def JSVal.truthy : JSVal → Bool
  | .num q => q != 0
  | .nan => false
  | _ => true

/-- JS `x || y` on a numeric `x`. -/
def jsOr (x y : JSVal) : JSVal := if x.truthy then x else y

/-- JS division of two finite numbers: `c / 0` is `NaN` when `c = 0`
and a signed infinity otherwise. -/
def jsDivNum (c d : ℚ) : JSVal :=
  if d = 0 then
    (if c = 0 then .nan else if c > 0 then .posInf else .negInf)
  else .num (c / d)

/-- `getPlayedPercents` (`wavesurfer.js:649`):
`this.getCurrentTime() / this.duration || 0`. -/
def getPlayedPercents (curPosition duration : ℚ) : JSVal :=
  jsOr (jsDivNum curPosition duration) (.num 0)

/-! ### seekTo / skip -/

/-- `seekTo` (`wavesurfer.js:778`–`800`).  The source rejects the
argument when `typeof progress !== 'number' || !isFinite(progress) ||
progress < 0 || progress > 1`; on a `JSVal` only the `num q` branch can
pass the first two tests, so the check collapses to the range test on
`q`.  On success the original `scrollParent` is saved, cleared for the
internal update, and restored. -/
def seekTo (inst : WaveSurferState) (progress : JSVal) :
    Except JSError Unit × WaveSurferState × List WSEvent :=
  match progress with
  | .num q =>
    if q < 0 ∨ q > 1 then (.error .seekOutOfRange, inst, [])
    else
      let oldScrollParent := inst.params.scrollParent
      let inst1 := { inst with params := { inst.params with scrollParent := false } }
      let inst2 := { inst1 with curPosition := q * inst1.duration }
      let inst3 := { inst2 with params := { inst2.params with scrollParent := oldScrollParent } }
      (.ok (), inst3, [.interaction, .drawerProgress q, .seek q])
  | _ => (.error .seekOutOfRange, inst, [])

/-- `seekAndCenter` (`wavesurfer.js:763`): `seekTo` then
`drawer.recenter`; the recenter call is skipped when `seekTo` throws. -/
def seekAndCenter (inst : WaveSurferState) (progress : ℚ) :
    Except JSError Unit × WaveSurferState × List WSEvent :=
  match seekTo inst (.num progress) with
  | (.ok (), inst1, evs) => (.ok (), inst1, evs ++ [.drawerRecenter progress])
  | r => r

/-- The `duration` local of `skip` (`wavesurfer.js:749`):
`this.duration || 1`. -/
def skipDuration (duration : ℚ) : ℚ := if duration = 0 then 1 else duration

/-- The clamped `position` local of `skip` (`wavesurfer.js:750`–`751`):
`Math.max(0, Math.min(duration, position + (offset || 0)))`, where the
current position and the offset fall back to `0` when falsy (`none`
embeds an `undefined` offset). -/
def skipPosition (duration curPosition : ℚ) (offset : Option ℚ) : ℚ :=
  let d := skipDuration duration
  let p := if curPosition = 0 then 0 else curPosition
  max 0 (min d (p + offset.getD 0))

/-- The progress fraction `position / duration` that `skip` hands to
`seekAndCenter` (`wavesurfer.js:752`). -/
def skipFraction (duration curPosition : ℚ) (offset : Option ℚ) : ℚ :=
  skipPosition duration curPosition offset / skipDuration duration

/-- `skip` (`wavesurfer.js:748`–`753`). -/
def skip (inst : WaveSurferState) (offset : Option ℚ) :
    Except JSError Unit × WaveSurferState × List WSEvent :=
  seekAndCenter inst (skipFraction inst.duration inst.curPosition offset)

/-! ### empty / load -/

/-- `empty` (`wavesurfer.js:1151`–`1164`): `stop()` (a no-op `pause`
plus `seekTo(0)`), zero the position/duration/ready flag, then clear the
drawer.  `seekTo(0)` always succeeds, so the `Except` is elided. -/
def empty (inst : WaveSurferState) : WaveSurferState × List WSEvent :=
  let r := seekTo inst (.num 0)
  let inst1 := { r.2.1 with curPosition := 0, duration := 0, isReady := false }
  (inst1, r.2.2 ++ [.drawerProgress 0, .drawerSetWidth 0, .drawerDrawPeaksEmpty])

/-- `load` (`wavesurfer.js:1063`–`1080`): validate `peaks` and
`duration`, then `empty()`, store the arguments (`peakMax = pmax || 0`),
`drawBuffer()`, set `isReady` and fire `'ready'`.  A thrown validation
error leaves the instance untouched with nothing drawn. -/
def load (inst : WaveSurferState) (peaks : Option (List ℚ)) (duration : ℚ)
    (pmax : Option ℚ) :
    Except JSError Unit × WaveSurferState × List WSEvent :=
  if peaks = none ∨ peaks = some [] then (.error .peaksEmpty, inst, [])
  else if duration = 0 then (.error .durationEmpty, inst, [])
  else
    let r := empty inst
    let inst2 := { r.1 with peaks := peaks, duration := duration,
                            peakMax := pmax.getD 0 }
    match drawBuffer inst2 with
    | .ok (inst3, evs2) =>
      (.ok (), { inst3 with isReady := true }, r.2 ++ evs2 ++ [.ready])
    | .error e => (.error e, inst2, r.2)

/-! ### Constructor validation -/

/-- The errors the `WaveSurfer` constructor can throw, in source order
(`wavesurfer.js:330`–`364`). -/
inductive CtorError where
  | containerNotFound
  | maxCanvasWidthTooSmall
  | maxCanvasWidthOdd
  | rendererInvalid
  deriving Repr, DecidableEq

/-- The instance fields relevant to construction: the constructor sets
`drawer` and `peakCache` to `null`; they are only created later by
`init()`. -/
structure CtorState where
  drawerCreated : Bool
  peakCache : Option PeakCache
  isReady : Bool
  deriving Repr, DecidableEq

/-- The `WaveSurfer` constructor's synchronous validation
(`wavesurfer.js:312`–`405`): container lookup, the two `maxCanvasWidth`
checks (`<= 1`, then `% 2 == 1`), and the `typeof renderer` check, in
that order.  No drawer or tile is created here. -/
def construct (containerFound : Bool) (maxCanvasWidth : ℤ)
    (rendererIsFunction : Bool) : Except CtorError CtorState :=
  if !containerFound then .error .containerNotFound
  else if maxCanvasWidth ≤ 1 then .error .maxCanvasWidthTooSmall
  else if maxCanvasWidth % 2 = 1 then .error .maxCanvasWidthOdd
  else if !rendererIsFunction then .error .rendererInvalid
  else .ok { drawerCreated := false, peakCache := none, isReady := false }

/-- `Except` success as a boolean, to state "raises iff" claims
decidably. -/
def exceptOk {ε α : Type} : Except ε α → Bool
  | .ok _ => true
  | .error _ => false

/-! ### Concrete states for witnesses -/

def sampleParams : Params :=
  { minPxPerSec := 20, pixelRatio := 1, fillParent := true,
    scrollParent := false, partialRender := false }

def sampleState : WaveSurferState :=
  { params := sampleParams, duration := 1, curPosition := 0,
    peaks := none, peakMax := 0, isReady := false,
    peakCache := none, parentWidth := 100 }

def samplePartialState : WaveSurferState :=
  { sampleState with
    params := { sampleParams with partialRender := true },
    peakCache := some PeakCache.init }

/-! ### Claims -/

/-- Claim C3, counterexample: at `W = 10`, `s = e = 0` (a pixel range
with `s ≤ e`) the first of two consecutive `addRange` calls on a fresh
cache returns the empty sequence, not the full range `[0, 0)` as a
single sub-range, because the degenerate `start == end` request returns
the empty sequence. -/
theorem addRange_idempotent_counterexample :
    (addRangeToPeakCache PeakCache.init 10 0 0).1 = [] ∧
    (addRangeToPeakCache PeakCache.init 10 0 0).1 ≠ [(0, 0)] := by
  decide

/-- Claim C3 (amended): for every width `W` and pixels `s < e`, two
consecutive `addRange(W, s, e)` calls on a fresh cache return the full
range `[s, e)` as the single new sub-range the first time and the empty
sequence the second time; in the degenerate case `s = e` both calls
return the empty sequence, so in either case the second identical
request repaints no pixels. -/
theorem addRange_idempotent (W s e : ℤ) :
    (s < e →
      (addRangeToPeakCache PeakCache.init W s e).1 = [(s, e)] ∧
      (addRangeToPeakCache (addRangeToPeakCache PeakCache.init W s e).2 W s e).1 = []) ∧
    (s = e →
      (addRangeToPeakCache PeakCache.init W s e).1 = [] ∧
      (addRangeToPeakCache (addRangeToPeakCache PeakCache.init W s e).2 W s e).1 = []) := by
  constructor
  · intro h
    have hne : ¬(s = e) := ne_of_lt h
    have hles : ¬(e ≤ s) := not_le.mpr h
    simp [addRangeToPeakCache, newRangesIn, absorbRange, PeakCache.init,
      hne, hles, h, lt_irrefl]
  · intro h
    simp [addRangeToPeakCache, newRangesIn, PeakCache.init, h]

/-- Claim C3 witness: concrete instances of both branches of the
amended statement, at `(W, s, e) = (20, 0, 20)` and `(20, 5, 5)`. -/
theorem addRange_idempotent_witness :
    ((addRangeToPeakCache PeakCache.init 20 0 20).1 = [(0, 20)] ∧
      (addRangeToPeakCache (addRangeToPeakCache PeakCache.init 20 0 20).2 20 0 20).1 = []) ∧
    ((addRangeToPeakCache PeakCache.init 20 5 5).1 = [] ∧
      (addRangeToPeakCache (addRangeToPeakCache PeakCache.init 20 5 5).2 20 5 5).1 = []) :=
  ⟨(addRange_idempotent 20 0 20).1 (by decide),
   (addRange_idempotent 20 5 5).2 rfl⟩

/-- Claim C4: whatever the cache holds, calling `addRange(W1, 0, 10)`
and then `addRange(W2, 0, 10)` with `W1 ≠ W2` returns the full range
`[0, 10)` again on the second call: the differing width discards the
entire painted set before the new range is inserted. -/
theorem addRange_width_invalidation (c : PeakCache) (W1 W2 : ℤ) (h : W1 ≠ W2) :
    (addRangeToPeakCache (addRangeToPeakCache c W1 0 10).2 W2 0 10).1 = [(0, 10)] := by
  simp [addRangeToPeakCache, newRangesIn, h]

/-- Claim C4 witness: the invalidation at widths `5` then `7` on a
fresh cache. -/
theorem addRange_width_invalidation_witness :
    (addRangeToPeakCache (addRangeToPeakCache PeakCache.init 5 0 10).2 7 0 10).1 = [(0, 10)] :=
  addRange_width_invalidation PeakCache.init 5 7 (by decide)

/-- Claim C5: with the container found and a function-valued renderer,
the constructor succeeds exactly when `maxCanvasWidth` is an even number
greater than 1; any error raised by those checks is one of the two
`maxCanvasWidth` configuration errors, and a successful construction
has created no drawer and no peak cache. -/
theorem construct_maxCanvasWidth_validation (w : ℤ) :
    ((∃ st, construct true w true = .ok st) ↔ (1 < w ∧ w % 2 = 0)) ∧
    (∀ e, construct true w true = .error e →
      e = .maxCanvasWidthTooSmall ∨ e = .maxCanvasWidthOdd) ∧
    (∀ st, construct true w true = .ok st →
      st.drawerCreated = false ∧ st.peakCache = none) := by
  by_cases h1 : w ≤ 1
  · have hc : construct true w true = .error .maxCanvasWidthTooSmall := by
      simp [construct, h1]
    refine ⟨?_, ?_, ?_⟩
    · rw [hc]
      constructor
      · rintro ⟨st, hst⟩
        exact Except.noConfusion hst
      · rintro ⟨hgt, -⟩
        omega
    · intro e he
      rw [hc] at he
      injection he with h'
      exact Or.inl h'.symm
    · intro st hst
      rw [hc] at hst
      exact Except.noConfusion hst
  · by_cases h2 : w % 2 = 1
    · have hc : construct true w true = .error .maxCanvasWidthOdd := by
        simp [construct, h1, h2]
      refine ⟨?_, ?_, ?_⟩
      · rw [hc]
        constructor
        · rintro ⟨st, hst⟩
          exact Except.noConfusion hst
        · rintro ⟨-, heven⟩
          omega
      · intro e he
        rw [hc] at he
        injection he with h'
        exact Or.inr h'.symm
      · intro st hst
        rw [hc] at hst
        exact Except.noConfusion hst
    · have hc : construct true w true =
          .ok { drawerCreated := false, peakCache := none, isReady := false } := by
        simp [construct, h1, h2]
      refine ⟨?_, ?_, ?_⟩
      · rw [hc]
        constructor
        · intro
          omega
        · intro
          exact ⟨_, rfl⟩
      · intro e he
        rw [hc] at he
        exact Except.noConfusion he
      · intro st hst
        rw [hc] at hst
        injection hst with h'
        rw [← h']
        exact ⟨rfl, rfl⟩

/-- Claim C5 witness: the default `maxCanvasWidth = 4000` constructs,
the odd `101` does not. -/
theorem construct_maxCanvasWidth_validation_witness :
    (∃ st, construct true 4000 true = .ok st) ∧
    ¬(∃ st, construct true 101 true = .ok st) := by
  constructor
  · exact (construct_maxCanvasWidth_validation 4000).1.mpr (by decide)
  · intro hst
    exact absurd ((construct_maxCanvasWidth_validation 101).1.mp hst).2 (by decide)

/-- Claim C7: with a found container and a valid `maxCanvasWidth`, a
non-function renderer makes the constructor throw
`'Renderer parameter is invalid'`; a function-valued renderer never
triggers that error, and no successful construction (for any arguments)
has created a drawer. -/
theorem construct_renderer_validation (w : ℤ) (hw : 1 < w ∧ w % 2 = 0) :
    construct true w false = .error .rendererInvalid ∧
    (∀ (cf : Bool) (w' : ℤ), construct cf w' true ≠ .error .rendererInvalid) ∧
    (∀ (cf r : Bool) (w' : ℤ) st, construct cf w' r = .ok st →
      st.drawerCreated = false) := by
  refine ⟨?_, ?_, ?_⟩
  · have h1 : ¬(w ≤ 1) := by omega
    have h2 : ¬(w % 2 = 1) := by omega
    simp [construct, h1, h2]
  · intro cf w' hcontra
    unfold construct at hcontra
    split_ifs at hcontra <;> simp_all
  · intro cf r w' st h
    unfold construct at h
    split_ifs at h
    all_goals
      first
        | exact Except.noConfusion h
        | (injection h with h'; rw [← h'])

/-- Claim C7 witness: at the default width `4000`, a non-function
renderer throws the renderer error. -/
theorem construct_renderer_validation_witness :
    construct true 4000 false = .error .rendererInvalid :=
  (construct_renderer_validation 4000 (by decide)).1

/-- Claim C1: `drawBuffer` with `partialRender` off calls the drawer's
`drawPeaks` exactly once over the full `[start, end)` range, consults no
cache, and `createPeakCache` never even creates one; with
`partialRender` on it first calls `addRangeToPeakCache(width, start,
end)` and then calls `drawPeaks` exactly once per returned sub-range,
with that sub-range's bounds, in the order returned. -/
theorem drawBuffer_partialRender_dispatch (inst : WaveSurferState) (c : PeakCache)
    (g : DrawGeom)
    (hg : g = computeDrawGeom inst.params inst.duration inst.parentWidth) :
    (inst.params.partialRender = false →
      drawBuffer inst =
        .ok (inst, [.drawerDrawPeaks g.width g.start g.stop, .redraw g.width]) ∧
      createPeakCache inst.params = none) ∧
    (inst.params.partialRender = true → inst.peakCache = some c →
      drawBuffer inst =
        .ok ({ inst with
                peakCache := some (addRangeToPeakCache c g.width g.start g.stop).2 },
          .addRangeCall g.width g.start g.stop ::
            (addRangeToPeakCache c g.width g.start g.stop).1.map
                (fun nr => .drawerDrawPeaks g.width nr.1 nr.2) ++
              [.redraw g.width])) := by
  subst hg
  constructor
  · intro h
    exact ⟨by simp [drawBuffer, drawBufferAux, h],
           by simp [createPeakCache, h]⟩
  · intro h hc
    simp [drawBuffer, drawBufferAux, h, hc]

/-- Claim C1 witness: the two dispatch modes at the concrete sample
states (parent width 100, duration 1, `minPxPerSec` 20). -/
theorem drawBuffer_partialRender_dispatch_witness :
    drawBuffer sampleState =
      .ok (sampleState, [.drawerDrawPeaks 100 0 100, .redraw 100]) ∧
    createPeakCache sampleState.params = none ∧
    drawBuffer samplePartialState =
      .ok ({ samplePartialState with
              peakCache := some (addRangeToPeakCache PeakCache.init 100 0 100).2 },
        .addRangeCall 100 0 100 ::
          (addRangeToPeakCache PeakCache.init 100 0 100).1.map
              (fun nr => .drawerDrawPeaks 100 nr.1 nr.2) ++
            [.redraw 100]) := by
  have hj : jsRound (20 : ℚ) = 20 := by norm_num [jsRound]
  have h1 := (drawBuffer_partialRender_dispatch sampleState PeakCache.init
    { nominalWidth := 20, width := 100, start := 0, stop := 100 }
    (by simp [computeDrawGeom, sampleState, sampleParams, hj])).1 rfl
  have h2 := (drawBuffer_partialRender_dispatch samplePartialState PeakCache.init
    { nominalWidth := 20, width := 100, start := 0, stop := 100 }
    (by simp [computeDrawGeom, samplePartialState, sampleState, sampleParams, hj])).2
    rfl rfl
  exact ⟨h1.1, h1.2, h2⟩

/-- Claim C2: `drawBuffer`'s geometry computes the nominal width as
`Math.round(duration * minPxPerSec * pixelRatio)`; when `fillParent` is
set and either `scrollParent` is unset or the nominal width is smaller
than the parent width, the draw collapses to the parent width with
range `[0, parentWidth)`; otherwise the nominal width is used with
range `[0, max(parentWidth, nominalWidth))`. -/
theorem drawBuffer_width_policy (p : Params) (duration : ℚ) (parentWidth : ℤ)
    (n : ℤ) (hn : n = jsRound (duration * p.minPxPerSec * p.pixelRatio)) :
    (computeDrawGeom p duration parentWidth).nominalWidth = n ∧
    (p.fillParent = true ∧ (p.scrollParent = false ∨ n < parentWidth) →
      computeDrawGeom p duration parentWidth =
        { nominalWidth := n, width := parentWidth, start := 0, stop := parentWidth }) ∧
    (¬(p.fillParent = true ∧ (p.scrollParent = false ∨ n < parentWidth)) →
      computeDrawGeom p duration parentWidth =
        { nominalWidth := n, width := n, start := 0, stop := max parentWidth n }) := by
  subst hn
  have hiff : (p.fillParent && (!p.scrollParent ||
      decide (jsRound (duration * p.minPxPerSec * p.pixelRatio) < parentWidth))) = true ↔
      (p.fillParent = true ∧ (p.scrollParent = false ∨
        jsRound (duration * p.minPxPerSec * p.pixelRatio) < parentWidth)) := by
    simp [Bool.and_eq_true, Bool.or_eq_true, Bool.not_eq_true', decide_eq_true_eq]
  by_cases hb : (p.fillParent && (!p.scrollParent ||
      decide (jsRound (duration * p.minPxPerSec * p.pixelRatio) < parentWidth))) = true
  · refine ⟨?_, ?_, ?_⟩
    · simp [computeDrawGeom, hb]
    · intro _
      simp [computeDrawGeom, hb]
    · intro hcontra
      exact absurd (hiff.mp hb) hcontra
  · rw [Bool.not_eq_true] at hb
    refine ⟨?_, ?_, ?_⟩
    · simp [computeDrawGeom, hb]
    · intro hcond
      exact absurd ((hiff.mpr hcond).symm.trans hb) (by simp)
    · intro _
      simp [computeDrawGeom, hb, zero_add]

/-- Claim C2 witness: duration 1, `minPxPerSec` 20, `pixelRatio` 1,
parent width 100 — the fill policy collapses to the parent width; with
`fillParent` unset the nominal width 20 is kept with range
`[0, max(100, 20))`. -/
theorem drawBuffer_width_policy_witness :
    computeDrawGeom sampleParams 1 100 =
      { nominalWidth := 20, width := 100, start := 0, stop := 100 } ∧
    computeDrawGeom { sampleParams with fillParent := false } 1 100 =
      { nominalWidth := 20, width := 20, start := 0, stop := max 100 20 } := by
  constructor
  · exact (drawBuffer_width_policy sampleParams 1 100 20
      (by norm_num [jsRound, sampleParams])).2.1 ⟨rfl, Or.inl rfl⟩
  · exact (drawBuffer_width_policy { sampleParams with fillParent := false }
      1 100 20 (by norm_num [jsRound, sampleParams])).2.2 (by simp [sampleParams])

/-- Claim C8: `seekTo` throws exactly when the argument is not a finite
number in `[0, 1]`; on a throw the instance (current position,
`scrollParent`) is untouched and the drawer is never called; on success
`scrollParent` ends up restored to its pre-call value. -/
theorem seekTo_validation (inst : WaveSurferState) (v : JSVal) :
    (exceptOk (seekTo inst v).1 = false ↔
      ¬∃ q : ℚ, v = .num q ∧ 0 ≤ q ∧ q ≤ 1) ∧
    (exceptOk (seekTo inst v).1 = false →
      (seekTo inst v).2.1 = inst ∧ (seekTo inst v).2.2 = []) ∧
    (exceptOk (seekTo inst v).1 = true →
      (seekTo inst v).2.1.params.scrollParent = inst.params.scrollParent) := by
  cases v with
  | num q =>
    by_cases hcond : q < 0 ∨ q > 1
    · refine ⟨?_, ?_, ?_⟩ <;> simp [seekTo, hcond, exceptOk]
      rcases hcond with h | h
      · intro h0
        exact absurd h0 (not_le.mpr h)
      · intro h0
        exact h
    · have h' := not_or.mp hcond
      refine ⟨?_, ?_, ?_⟩ <;> simp [seekTo, hcond, exceptOk]
      exact ⟨not_lt.mp h'.1, not_lt.mp h'.2⟩
  | nan => refine ⟨?_, ?_, ?_⟩ <;> simp [seekTo, exceptOk]
  | posInf => refine ⟨?_, ?_, ?_⟩ <;> simp [seekTo, exceptOk]
  | negInf => refine ⟨?_, ?_, ?_⟩ <;> simp [seekTo, exceptOk]
  | nonNumber => refine ⟨?_, ?_, ?_⟩ <;> simp [seekTo, exceptOk]

/-- Claim C8 witness: a valid seek to `1/2` keeps `scrollParent`, an
invalid seek to `2` changes nothing and emits nothing. -/
theorem seekTo_validation_witness :
    (seekTo sampleState (.num (1 / 2))).2.1.params.scrollParent =
      sampleState.params.scrollParent ∧
    (seekTo sampleState (.num 2)).2.1 = sampleState ∧
    (seekTo sampleState (.num 2)).2.2 = [] := by
  refine ⟨(seekTo_validation sampleState (.num (1 / 2))).2.2
      (by norm_num [seekTo, exceptOk]),
    (seekTo_validation sampleState (.num 2)).2.1
      (by norm_num [seekTo, exceptOk])⟩

/-- The `duration` local of `skip` is never zero. -/
theorem skipDuration_ne_zero (d : ℚ) : skipDuration d ≠ 0 := by
  unfold skipDuration
  split_ifs with h
  · exact one_ne_zero
  · exact h

/-- The clamped position is nonnegative. -/
theorem skipPosition_nonneg (d c : ℚ) (o : Option ℚ) :
    0 ≤ skipPosition d c o := by
  unfold skipPosition
  exact le_max_left _ _

/-- The progress fraction `skip` computes always lies in `[0, 1]`. -/
theorem skipFraction_bounds (d c : ℚ) (o : Option ℚ) :
    0 ≤ skipFraction d c o ∧ skipFraction d c o ≤ 1 := by
  have hne : skipDuration d ≠ 0 := skipDuration_ne_zero d
  unfold skipFraction
  rcases lt_trichotomy (skipDuration d) 0 with hlt | heq | hgt
  · have hpos0 : skipPosition d c o = 0 := by
      unfold skipPosition
      exact max_eq_left (le_of_lt (lt_of_le_of_lt (min_le_left _ _) hlt))
    rw [hpos0, zero_div]
    exact ⟨le_refl 0, zero_le_one⟩
  · exact absurd heq hne
  · constructor
    · exact div_nonneg (skipPosition_nonneg d c o) (le_of_lt hgt)
    · rw [div_le_one hgt]
      unfold skipPosition
      exact max_le (le_of_lt hgt) (min_le_left _ _)

/-- Claim C9: `skip(offset)` clamps the new position to
`max(0, min(D, current + offset))` with `D` the stored duration or `1`
when that is falsy (an absent offset counting as `0`); the progress
fraction handed to the internal seek lies in `[0, 1]`, so `skip` can
never trigger `seekTo`'s range error, and the stored position becomes
that fraction times the stored duration. -/
theorem skip_clamps_progress (inst : WaveSurferState) (offset : Option ℚ) :
    skipPosition inst.duration inst.curPosition offset =
      max 0 (min (if inst.duration = 0 then 1 else inst.duration)
        (inst.curPosition + offset.getD 0)) ∧
    0 ≤ skipFraction inst.duration inst.curPosition offset ∧
    skipFraction inst.duration inst.curPosition offset ≤ 1 ∧
    (skip inst offset).1 = .ok () ∧
    (skip inst offset).2.1.curPosition =
      skipFraction inst.duration inst.curPosition offset * inst.duration := by
  have hb := skipFraction_bounds inst.duration inst.curPosition offset
  have hcond : ¬(skipFraction inst.duration inst.curPosition offset < 0 ∨
      skipFraction inst.duration inst.curPosition offset > 1) := by
    rw [not_or, not_lt, not_lt]
    exact ⟨hb.1, hb.2⟩
  refine ⟨?_, hb.1, hb.2, ?_, ?_⟩
  · unfold skipPosition skipDuration
    by_cases hc : inst.curPosition = 0 <;> simp [hc]
  · simp [skip, seekAndCenter, seekTo, hcond]
  · simp [skip, seekAndCenter, seekTo, hcond]

/-- Drawer calls that put peak pixels on a canvas. -/
def isDrawCall : WSEvent → Bool
  | .drawerDrawPeaks _ _ _ => true
  | .drawerDrawPeaksEmpty => true
  | _ => false

/-- The last element of a list extended by a singleton. -/
theorem getLast?_append_singleton {α : Type} (l : List α) (a : α) :
    (l ++ [a]).getLast? = some a := by
  rw [List.getLast?_concat]

/-- Claim C6: `load(peaks, duration, peakMax)` throws exactly when
`peaks` is missing or empty or `duration` is falsy; a throw happens
before anything is drawn and leaves the instance untouched; otherwise
the arguments are stored (`peakMax` defaulting to `0`), drawing
happens, `isReady` becomes true and `'ready'` fires last. -/
theorem load_validation (inst : WaveSurferState) (peaks : Option (List ℚ))
    (duration : ℚ) (pmax : Option ℚ)
    (hcache : inst.params.partialRender = true → inst.peakCache ≠ none) :
    (exceptOk (load inst peaks duration pmax).1 = false ↔
      (peaks = none ∨ peaks = some [] ∨ duration = 0)) ∧
    (exceptOk (load inst peaks duration pmax).1 = false →
      (load inst peaks duration pmax).2.1 = inst ∧
      (load inst peaks duration pmax).2.2 = []) ∧
    (exceptOk (load inst peaks duration pmax).1 = true →
      (load inst peaks duration pmax).2.1.peaks = peaks ∧
      (load inst peaks duration pmax).2.1.duration = duration ∧
      (load inst peaks duration pmax).2.1.peakMax = pmax.getD 0 ∧
      (load inst peaks duration pmax).2.1.isReady = true ∧
      (load inst peaks duration pmax).2.2.getLast? = some .ready ∧
      (load inst peaks duration pmax).2.2.any isDrawCall = true) := by
  have h01 : ¬((0 : ℚ) < 0 ∨ (0 : ℚ) > 1) := by norm_num
  have h10 : ¬((1 : ℚ) < 0) := by norm_num
  by_cases hp : peaks = none ∨ peaks = some []
  · have hl : load inst peaks duration pmax = (.error .peaksEmpty, inst, []) := by
      simp [load, hp]
    rw [hl]
    refine ⟨?_, fun _ => ⟨rfl, rfl⟩, ?_⟩
    · simp only [exceptOk]
      constructor
      · intro _
        rcases hp with h | h
        · exact Or.inl h
        · exact Or.inr (Or.inl h)
      · intro _
        trivial
    · intro hok
      exact absurd hok (by simp [exceptOk])
  · obtain ⟨hp1, hp2⟩ := not_or.mp hp
    by_cases hd : duration = 0
    · have hl : load inst peaks duration pmax = (.error .durationEmpty, inst, []) := by
        simp [load, hp1, hp2, hd]
      rw [hl]
      refine ⟨?_, fun _ => ⟨rfl, rfl⟩, ?_⟩
      · simp only [exceptOk]
        constructor
        · intro _
          exact Or.inr (Or.inr hd)
        · intro _
          trivial
      · intro hok
        exact absurd hok (by simp [exceptOk])
    · obtain ⟨⟨mps, pxr, fp, sp, prr⟩, dur0, cur0, pk0, pm0, ir0, pc0, pw0⟩ := inst
      cases prr with
      | false =>
        refine ⟨?_, ?_, ?_⟩ <;>
          simp [load, empty, seekTo, drawBuffer, drawBufferAux, exceptOk,
            hp1, hp2, hd, h01, h10, isDrawCall, getLast?_append_singleton]
      | true =>
        cases pc0 with
        | none => exact absurd rfl (hcache rfl)
        | some c =>
          refine ⟨?_, ?_, ?_⟩ <;>
            simp [load, empty, seekTo, drawBuffer, drawBufferAux, exceptOk,
              hp1, hp2, hd, h01, h10, isDrawCall, getLast?_append_singleton]
          rw [← List.cons_append, List.getLast?_append]
          rfl

/-- Claim C6 witness: loading the README's example peaks with duration
1 and `peakMax` 255 succeeds and stores them; loading an empty peak
array throws with the instance untouched and nothing drawn. -/
theorem load_validation_witness :
    (load sampleState (some [0, 100, 45, 11, 202, 68, 240]) 1 (some 255)).2.1.peaks =
      some [0, 100, 45, 11, 202, 68, 240] ∧
    (load sampleState (some [0, 100, 45, 11, 202, 68, 240]) 1 (some 255)).2.1.isReady =
      true ∧
    (load sampleState (some []) 1 none).2.1 = sampleState ∧
    (load sampleState (some []) 1 none).2.2 = [] := by
  have hA := load_validation sampleState (some [0, 100, 45, 11, 202, 68, 240]) 1
    (some 255) (by intro h; simp [sampleState, sampleParams] at h)
  have hB := load_validation sampleState (some []) 1 none
    (by intro h; simp [sampleState, sampleParams] at h)
  have hok : exceptOk
      (load sampleState (some [0, 100, 45, 11, 202, 68, 240]) 1 (some 255)).1 = true := by
    cases hEq : exceptOk
        (load sampleState (some [0, 100, 45, 11, 202, 68, 240]) 1 (some 255)).1 with
    | false =>
      have hcontra := hA.1.mp hEq
      simp at hcontra
    | true => rfl
  have herr : exceptOk (load sampleState (some []) 1 none).1 = false :=
    hB.1.mpr (Or.inr (Or.inl rfl))
  have h1 := hA.2.2 hok
  have h2 := hB.2.1 herr
  exact ⟨h1.1, h1.2.2.2.1, h2.1, h2.2⟩

/-- Claim C10: `getPlayedPercents` returns `currentTime / duration`
whenever that quotient is a nonzero finite number, returns `0` whenever
the quotient would be `0` or `NaN` (exactly the calls with
`currentTime = 0`, including the empty `0 / 0` state), and never
returns `NaN`. -/
theorem getPlayedPercents_spec (c d : ℚ) :
    (d ≠ 0 → c / d ≠ 0 → getPlayedPercents c d = .num (c / d)) ∧
    (c = 0 → getPlayedPercents c d = .num 0) ∧
    getPlayedPercents c d ≠ .nan := by
  refine ⟨?_, ?_, ?_⟩
  · intro hd hq
    simp [getPlayedPercents, jsDivNum, jsOr, JSVal.truthy, hd, hq]
  · intro hc
    subst hc
    by_cases hd : d = 0 <;>
      simp [getPlayedPercents, jsDivNum, jsOr, JSVal.truthy, hd]
  · by_cases hd : d = 0
    · by_cases hc : c = 0
      · simp [getPlayedPercents, jsDivNum, jsOr, JSVal.truthy, hd, hc]
      · rcases lt_or_gt_of_ne hc with h | h <;>
          simp [getPlayedPercents, jsDivNum, jsOr, JSVal.truthy, hd, hc,
            not_lt.mpr (le_of_lt h), h]
    · by_cases hq : c / d = 0 <;>
        simp [getPlayedPercents, jsDivNum, jsOr, JSVal.truthy, hd, hq]

/-- Claim C10 witness: the empty state `0 / 0` yields `0`, and a
nonzero finite quotient `3 / 2` is returned as such. -/
theorem getPlayedPercents_spec_witness :
    getPlayedPercents 0 0 = .num 0 ∧ getPlayedPercents 3 2 = .num (3 / 2) :=
  ⟨(getPlayedPercents_spec 0 0).2.1 rfl,
   (getPlayedPercents_spec 3 2).1 (by norm_num) (by norm_num)⟩

end MiniWaveSurfer
